import Mathlib

/-!
Verification of the STL 3D viewer application (React + three.js).

This file gives a shallow embedding, in Lean 4, of the parts of the
source that the specification's claims are about:

* `src/types/stl.ts` — the `STLFile` and `ViewerControls` records;
* `src/features/stats-overlay/StatsOverlay.tsx` — the displayed
  triangle-count estimate and the format label;
* `src/features/file-upload/FileUpload.tsx` — `handleFileSelect` and
  `handleDrop`, the filename-extension intake filter;
* `src/features/stl-viewer/STLViewer.tsx` — the scene manager: the
  `initThreeJS` one-time set-up, the `loadSTL` load/replace routine with
  its centre-and-rescale normalisation, the control-state
  reconciliation effect, the `animate` per-frame callback, and the
  effect clean-up (teardown) routine.

JavaScript numbers are idealised as `ℚ` (the claims under scrutiny only
concern exact arithmetic identities; divergences caused by `Infinity`
and `NaN` at a division by zero are called out where they decide a
claim).  Byte buffers are `List Nat`, strings are `String` or
`List Char`.  The imperative scene graph is an explicit `SceneState`
record threaded through the operations; three.js objects that the
claims quantify over (mesh surface, wireframe, normals helper, grid,
axes, lights) are `SceneObj` values identified by an allocation counter.
-/

/-- Model of the `STLFile` record from `src/types/stl.ts`: the raw asset
handed to the viewer, stats overlay and loader.  The `arrayBuffer` is
the raw byte buffer. -/
structure STLFileM where
  name : List Char
  size : Nat
  lastModified : Nat
  arrayBuffer : List Nat
deriving DecidableEq

/-- Model of the `ViewerControls` record from `src/types/stl.ts`: the
declarative control-state snapshot owned by the presentation shell. -/
structure ViewerControls where
  showWireframe : Bool
  showNormals : Bool
  showGrid : Bool
  showAxes : Bool
  backgroundColor : String
  modelColor : String
  lightingIntensity : ℚ
  rotationSpeed : ℚ
deriving DecidableEq

/-- Initial control state of the application (`App.tsx`, `useState`
initialiser). -/
def initialControls : ViewerControls :=
  { showWireframe := false
    showNormals := false
    showGrid := true
    showAxes := true
    backgroundColor := "#0f172a"
    modelColor := "#3b82f6"
    lightingIntensity := 1
    rotationSpeed := 0 }

/-! ## Stats overlay (`StatsOverlay.tsx`) -/

/-- Triangle count shown in the stats view
(`StatsOverlay.tsx` line 14): `Math.floor(stlFile.arrayBuffer.byteLength / 50)`.
Nat division is floor division, matching `Math.floor` on nonnegative
numbers. -/
def displayedTriangleCount (f : STLFileM) : Nat :=
  f.arrayBuffer.length / 50

/-- Modelled from the spec: the Geometry Loader's own `parse` is the
three.js `STLLoader` (imported from `three/examples`, not part of this
repository's sources).  Per the spec, a valid binary STL is an 80-byte
header, a 4-byte triangle count, and one 50-byte record per triangle,
so parse yields exactly `(byteLength - 84) / 50` triangles. -/
def parseTriangleCount (byteLength : Nat) : Nat :=
  (byteLength - 84) / 50

/-- Format label shown in the stats view (`StatsOverlay.tsx` line 81):
`byteLength > 84 ? 'Binary STL' : 'ASCII STL'`. -/
def formatLabel (f : STLFileM) : String :=
  if 84 < f.arrayBuffer.length then "Binary STL" else "ASCII STL"

/-- C8: for every uploaded buffer the stats view shows
`floor(byteLength / 50)` triangles; for a valid binary STL buffer
(84-byte header plus `n` 50-byte records) the loader's exact count is
`(byteLength - 84) / 50 = n`, while the displayed estimate is `n + 1` —
the two are distinct. -/
theorem claim_C8_triangle_count_estimate (f : STLFileM) (n : Nat)
    (hvalid : f.arrayBuffer.length = 84 + 50 * n) :
    displayedTriangleCount f = f.arrayBuffer.length / 50 ∧
    parseTriangleCount f.arrayBuffer.length = (f.arrayBuffer.length - 84) / 50 ∧
    parseTriangleCount f.arrayBuffer.length = n ∧
    displayedTriangleCount f = n + 1 ∧
    displayedTriangleCount f ≠ parseTriangleCount f.arrayBuffer.length := by
  refine ⟨rfl, rfl, ?_, ?_, ?_⟩
  · simp [parseTriangleCount, hvalid, Nat.mul_div_cancel_left]
  · simp only [displayedTriangleCount, hvalid]
    omega
  · simp only [displayedTriangleCount, parseTriangleCount, hvalid]
    omega

/-- Witness for C8 at a concrete 134-byte buffer (one 50-byte record
after the 84-byte header). -/
theorem claim_C8_witness :
    (List.replicate 134 0).length = 84 + 50 * 1 ∧
    displayedTriangleCount ⟨[], 134, 0, List.replicate 134 0⟩ = 1 + 1 :=
  ⟨by simp, (claim_C8_triangle_count_estimate ⟨[], 134, 0, List.replicate 134 0⟩ 1 (by simp)).2.2.2.1⟩

/-- C10: the format label is decided solely by the buffer's byte
length. -/
theorem claim_C10_format_label (f g : STLFileM) :
    (formatLabel f = "Binary STL" ↔ 84 < f.arrayBuffer.length) ∧
    (formatLabel f = "ASCII STL" ↔ ¬ 84 < f.arrayBuffer.length) ∧
    (f.arrayBuffer.length = g.arrayBuffer.length → formatLabel f = formatLabel g) := by
  refine ⟨?_, ?_, ?_⟩
  · unfold formatLabel
    split
    · simp_all
    · simp_all
  · unfold formatLabel
    split
    · simp_all
    · simp_all
  · intro h
    unfold formatLabel
    rw [h]

/-- Witness for C10: a 100-byte buffer (e.g. an ASCII `solid ...` text
longer than 84 bytes) is labelled `Binary STL` purely because of its
size — the content is never inspected. -/
theorem claim_C10_witness :
    formatLabel ⟨[], 100, 0, List.replicate 100 115⟩ = "Binary STL" :=
  (claim_C10_format_label ⟨[], 100, 0, List.replicate 100 115⟩ ⟨[], 100, 0, List.replicate 100 115⟩).1.mpr (by simp)

/-! ## File intake (`FileUpload.tsx`) -/

/-- Events the file-upload component can emit towards the rest of the
application.  The component's only output channel in the source is the
`onFileUpload` callback; an error constructor is included to state that
no error is ever surfaced at the intake boundary. -/
inductive IntakeEvent
  | upload (f : STLFileM)
  | errorMsg (s : String)
deriving DecidableEq

/-- Extension filter used by both intake handlers
(`FileUpload.tsx` lines 15 and 35):
`file.name.toLowerCase().endsWith('.stl')`. -/
def acceptsFile (name : List Char) : Bool :=
  (".stl".toList).isSuffixOf (name.map Char.toLower)

/-- Model of `handleFileSelect` (`FileUpload.tsx` lines 13-18): the
first selected file, if any, is forwarded via `onFileUpload` exactly
when the extension filter accepts it; otherwise nothing happens. -/
def handleFileSelect (file? : Option STLFileM) : List IntakeEvent :=
  match file? with
  | none => []
  | some f => if acceptsFile f.name then [.upload f] else []

/-- Model of `handleDrop` (`FileUpload.tsx` lines 30-38): identical
accept/forward logic on the first dropped file. -/
def handleDrop (file? : Option STLFileM) : List IntakeEvent :=
  match file? with
  | none => []
  | some f => if acceptsFile f.name then [.upload f] else []

/-- Independent reading of "the name ends in `.stl` case-insensitively":
the last four characters lower-case to `.stl`. -/
def endsWithStlCI (name : List Char) : Prop :=
  ∃ pre a b c d, name = pre ++ [a, b, c, d] ∧
    Char.toLower a = '.' ∧ Char.toLower b = 's' ∧
    Char.toLower c = 't' ∧ Char.toLower d = 'l'

theorem acceptsFile_iff (name : List Char) :
    acceptsFile name = true ↔ endsWithStlCI name := by
  unfold acceptsFile
  rw [List.isSuffixOf_iff_suffix]
  constructor
  · rintro ⟨t, ht⟩
    have hsplit := List.map_eq_append_iff.mp ht.symm
    obtain ⟨l₁, l₂, rfl, -, h₂⟩ := hsplit
    have hstl : ".stl".toList = ['.', 's', 't', 'l'] := by decide
    rw [hstl] at h₂
    rcases l₂ with _ | ⟨a, l₂⟩
    · simp at h₂
    rcases l₂ with _ | ⟨b, l₂⟩
    · simp at h₂
    rcases l₂ with _ | ⟨c, l₂⟩
    · simp at h₂
    rcases l₂ with _ | ⟨d, l₂⟩
    · simp at h₂
    rcases l₂ with _ | ⟨e, l₂⟩
    · simp only [List.map_cons, List.map_nil, List.cons.injEq, and_true] at h₂
      exact ⟨l₁, a, b, c, d, rfl, h₂.1, h₂.2.1, h₂.2.2.1, h₂.2.2.2⟩
    · simp at h₂
  · rintro ⟨pre, a, b, c, d, rfl, ha, hb, hc, hd⟩
    refine ⟨pre.map Char.toLower, ?_⟩
    simp [ha, hb, hc, hd]

/-- C9: a file offered at the input boundary is forwarded for loading
iff its name ends in `.stl` case-insensitively; any other file is
silently ignored — no load, no error.  Both the file-picker handler and
the drop handler behave identically. -/
theorem claim_C9_extension_filter (f : STLFileM) :
    (handleFileSelect (some f) = [IntakeEvent.upload f] ↔ endsWithStlCI f.name) ∧
    (¬ endsWithStlCI f.name → handleFileSelect (some f) = []) ∧
    handleDrop (some f) = handleFileSelect (some f) ∧
    (∀ m, IntakeEvent.errorMsg m ∉ handleFileSelect (some f)) ∧
    (∀ m, IntakeEvent.errorMsg m ∉ handleDrop (some f)) := by
  have hiff := acceptsFile_iff f.name
  have hsel : handleFileSelect (some f) =
      if acceptsFile f.name = true then [IntakeEvent.upload f] else [] := rfl
  have hdrop : handleDrop (some f) =
      if acceptsFile f.name = true then [IntakeEvent.upload f] else [] := rfl
  by_cases h : acceptsFile f.name = true
  · rw [hsel, hdrop, if_pos h]
    refine ⟨⟨fun _ => hiff.mp h, fun _ => rfl⟩, fun hno => absurd (hiff.mp h) hno, rfl, ?_, ?_⟩
    · intro m
      simp
    · intro m
      simp
  · rw [hsel, hdrop, if_neg h]
    refine ⟨⟨?_, ?_⟩, fun _ => rfl, rfl, by simp, by simp⟩
    · intro habs
      simp at habs
    · intro he
      exact absurd (hiff.mpr he) h

/-- Witness for C9: `model.STL` (upper-case extension) is accepted and
forwarded; the lower-case check in the source makes the filter
case-insensitive. -/
theorem claim_C9_witness :
    handleFileSelect (some ⟨"model.STL".toList, 7, 0, []⟩) =
      [IntakeEvent.upload ⟨"model.STL".toList, 7, 0, []⟩] :=
  (claim_C9_extension_filter ⟨"model.STL".toList, 7, 0, []⟩).1.mpr
    ⟨"model".toList, '.', 'S', 'T', 'L', by decide, by decide, by decide, by decide, by decide⟩

/-! ## Geometry normalisation (`STLViewer.tsx`, `loadSTL` lines 203-214)

Vertex positions are idealised as exact rationals.  The source computes
the bounding box once (`computeBoundingBox`), takes its centre
(`getCenter`, which is `(min + max) / 2` per axis), translates the
geometry by the negated centre, reads the size from the same (now
stale, but translation-invariant) box (`getSize`, which is `max - min`
per axis), and scales uniformly by `2 / maxDim`. -/

/-- Vertex position.  Coordinates are exact rationals standing in for
JavaScript doubles. -/
structure V3 where
  x : ℚ
  y : ℚ
  z : ℚ
deriving DecidableEq

/-- Minimum of a list of rationals (0 for the empty list; an empty
geometry yields an empty bounding box and never satisfies the
nonemptiness hypotheses below). -/
def listMin : List ℚ → ℚ
  | [] => 0
  | a :: t => t.foldl min a

/-- Maximum of a list of rationals (0 for the empty list). -/
def listMax : List ℚ → ℚ
  | [] => 0
  | a :: t => t.foldl max a

def xs (vs : List V3) : List ℚ := vs.map V3.x

def ys (vs : List V3) : List ℚ := vs.map V3.y

def zs (vs : List V3) : List ℚ := vs.map V3.z

/-- Bounding-box centre, x axis: `Box3.getCenter` is `(min + max) / 2`. -/
def centerXOf (vs : List V3) : ℚ := (listMin (xs vs) + listMax (xs vs)) / 2

def centerYOf (vs : List V3) : ℚ := (listMin (ys vs) + listMax (ys vs)) / 2

def centerZOf (vs : List V3) : ℚ := (listMin (zs vs) + listMax (zs vs)) / 2

/-- Bounding-box extent per axis: `Box3.getSize` is `max - min`. -/
def sizeX (vs : List V3) : ℚ := listMax (xs vs) - listMin (xs vs)

def sizeY (vs : List V3) : ℚ := listMax (ys vs) - listMin (ys vs)

def sizeZ (vs : List V3) : ℚ := listMax (zs vs) - listMin (zs vs)

/-- Largest bounding-box dimension:
`Math.max(size.x, size.y, size.z)`. -/
def maxDimOf (vs : List V3) : ℚ := max (sizeX vs) (max (sizeY vs) (sizeZ vs))

/-- Uniform scale factor `2 / maxDim` (the fixed target size is 2).
In Lean, division by zero yields 0; in JavaScript it yields
`Infinity` — either way a degenerate geometry (maxDim = 0) does not
end up with largest dimension 2, which is what decides claim C5. -/
def scaleOf (vs : List V3) : ℚ := 2 / maxDimOf vs

/-- Post-parse normalisation performed inside `loadSTL`
(lines 203-214): recentre by the bounding-box centre, then scale
uniformly by `2 / maxDim`. -/
def centerAndScale (vs : List V3) : List V3 :=
  (vs.map fun v => V3.mk (v.x - centerXOf vs) (v.y - centerYOf vs) (v.z - centerZOf vs)).map
    fun v => V3.mk (scaleOf vs * v.x) (scaleOf vs * v.y) (scaleOf vs * v.z)

theorem foldl_min_affine (s c : ℚ) (hs : 0 ≤ s) (t : List ℚ) :
    ∀ acc : ℚ, ((t.map fun x => s * (x - c)).foldl min (s * (acc - c))) = s * (t.foldl min acc - c) := by
  induction t with
  | nil => intro acc; rfl
  | cons b t ih =>
    intro acc
    simp only [List.map_cons, List.foldl_cons]
    have hmin : min (s * (acc - c)) (s * (b - c)) = s * (min acc b - c) := by
      rw [← min_sub_sub_right]
      exact (mul_min_of_nonneg _ _ hs).symm
    rw [hmin]
    exact ih (min acc b)

theorem foldl_max_affine (s c : ℚ) (hs : 0 ≤ s) (t : List ℚ) :
    ∀ acc : ℚ, ((t.map fun x => s * (x - c)).foldl max (s * (acc - c))) = s * (t.foldl max acc - c) := by
  induction t with
  | nil => intro acc; rfl
  | cons b t ih =>
    intro acc
    simp only [List.map_cons, List.foldl_cons]
    have hmax : max (s * (acc - c)) (s * (b - c)) = s * (max acc b - c) := by
      rw [← max_sub_sub_right]
      exact (mul_max_of_nonneg _ _ hs).symm
    rw [hmax]
    exact ih (max acc b)

theorem listMin_affine (s c : ℚ) (hs : 0 ≤ s) (l : List ℚ) (hl : l ≠ []) :
    listMin (l.map fun x => s * (x - c)) = s * (listMin l - c) := by
  cases l with
  | nil => exact absurd rfl hl
  | cons a t =>
    simpa [listMin] using foldl_min_affine s c hs t a

theorem listMax_affine (s c : ℚ) (hs : 0 ≤ s) (l : List ℚ) (hl : l ≠ []) :
    listMax (l.map fun x => s * (x - c)) = s * (listMax l - c) := by
  cases l with
  | nil => exact absurd rfl hl
  | cons a t =>
    simpa [listMax] using foldl_max_affine s c hs t a

theorem xs_centerAndScale (vs : List V3) :
    xs (centerAndScale vs) = (xs vs).map fun x => scaleOf vs * (x - centerXOf vs) := by
  simp only [xs, centerAndScale, List.map_map]
  rfl

theorem ys_centerAndScale (vs : List V3) :
    ys (centerAndScale vs) = (ys vs).map fun y => scaleOf vs * (y - centerYOf vs) := by
  simp only [ys, centerAndScale, List.map_map]
  rfl

theorem zs_centerAndScale (vs : List V3) :
    zs (centerAndScale vs) = (zs vs).map fun z => scaleOf vs * (z - centerZOf vs) := by
  simp only [zs, centerAndScale, List.map_map]
  rfl

/-- Claim C5 as stated: after normalisation, every successfully parsed
(nonempty) mesh has bounding-box centre at the origin and largest
bounding-box dimension equal to the fixed target size 2. -/
def C5Statement : Prop :=
  ∀ vs : List V3, vs ≠ [] →
    centerXOf (centerAndScale vs) = 0 ∧ centerYOf (centerAndScale vs) = 0 ∧
    centerZOf (centerAndScale vs) = 0 ∧ maxDimOf (centerAndScale vs) = 2

/-- Degenerate mesh: one triangle all of whose vertices coincide.  A
binary STL file can encode exactly this, and `STLLoader.parse` accepts
it, so it is a successfully parsed mesh. -/
def degenerateMesh : List V3 := [⟨1, 1, 1⟩, ⟨1, 1, 1⟩, ⟨1, 1, 1⟩]

/-- Counterexample to C5 as stated: for the degenerate one-point mesh
the bounding box has `maxDim = 0`, so the scale factor `2 / maxDim` is
not a finite positive number (0 under Lean's division convention,
`Infinity` in JavaScript, where the scaled coordinates become `NaN`);
in either semantics the normalised largest dimension is not 2. -/
theorem claim_C5_counterexample : ¬ C5Statement := by
  intro h
  have hmem := h degenerateMesh (by simp [degenerateMesh])
  have hzero : maxDimOf (centerAndScale degenerateMesh) = 0 := by
    norm_num [maxDimOf, centerAndScale, sizeX, sizeY, sizeZ, xs, ys, zs, listMin, listMax,
      centerXOf, centerYOf, centerZOf, scaleOf, degenerateMesh]
  rw [hzero] at hmem
  exact absurd hmem.2.2.2 (by norm_num)

/-- C5 amended: the counterexample forces the extra hypothesis that the
largest native bounding-box dimension is positive (i.e. the mesh is not
degenerate to a single point).  Under that hypothesis the claim holds
exactly: the normalised bounding-box centre is the origin and the
normalised largest dimension is exactly the target size 2, regardless
of the native scale of the model. -/
theorem claim_C5_normalized_bbox (vs : List V3) (hne : vs ≠ [])
    (hpos : 0 < maxDimOf vs) :
    centerXOf (centerAndScale vs) = 0 ∧ centerYOf (centerAndScale vs) = 0 ∧
    centerZOf (centerAndScale vs) = 0 ∧ maxDimOf (centerAndScale vs) = 2 := by
  have hs : 0 ≤ scaleOf vs := div_nonneg (by norm_num) hpos.le
  have hxne : xs vs ≠ [] := by simpa [xs] using hne
  have hyne : ys vs ≠ [] := by simpa [ys] using hne
  have hzne : zs vs ≠ [] := by simpa [zs] using hne
  have hminx : listMin (xs (centerAndScale vs)) = scaleOf vs * (listMin (xs vs) - centerXOf vs) := by
    rw [xs_centerAndScale]
    exact listMin_affine _ _ hs _ hxne
  have hmaxx : listMax (xs (centerAndScale vs)) = scaleOf vs * (listMax (xs vs) - centerXOf vs) := by
    rw [xs_centerAndScale]
    exact listMax_affine _ _ hs _ hxne
  have hminy : listMin (ys (centerAndScale vs)) = scaleOf vs * (listMin (ys vs) - centerYOf vs) := by
    rw [ys_centerAndScale]
    exact listMin_affine _ _ hs _ hyne
  have hmaxy : listMax (ys (centerAndScale vs)) = scaleOf vs * (listMax (ys vs) - centerYOf vs) := by
    rw [ys_centerAndScale]
    exact listMax_affine _ _ hs _ hyne
  have hminz : listMin (zs (centerAndScale vs)) = scaleOf vs * (listMin (zs vs) - centerZOf vs) := by
    rw [zs_centerAndScale]
    exact listMin_affine _ _ hs _ hzne
  have hmaxz : listMax (zs (centerAndScale vs)) = scaleOf vs * (listMax (zs vs) - centerZOf vs) := by
    rw [zs_centerAndScale]
    exact listMax_affine _ _ hs _ hzne
  refine ⟨?_, ?_, ?_, ?_⟩
  · rw [centerXOf, hminx, hmaxx, centerXOf]
    ring
  · rw [centerYOf, hminy, hmaxy, centerYOf]
    ring
  · rw [centerZOf, hminz, hmaxz, centerZOf]
    ring
  · have hszx : sizeX (centerAndScale vs) = scaleOf vs * sizeX vs := by
      rw [sizeX, hminx, hmaxx, sizeX]
      ring
    have hszy : sizeY (centerAndScale vs) = scaleOf vs * sizeY vs := by
      rw [sizeY, hminy, hmaxy, sizeY]
      ring
    have hszz : sizeZ (centerAndScale vs) = scaleOf vs * sizeZ vs := by
      rw [sizeZ, hminz, hmaxz, sizeZ]
      ring
    rw [maxDimOf, hszx, hszy, hszz, ← mul_max_of_nonneg _ _ hs, ← mul_max_of_nonneg _ _ hs]
    rw [← maxDimOf, scaleOf]
    exact div_mul_cancel₀ 2 (ne_of_gt hpos)

/-- Demonstration mesh used as the witness for C5: native bounding box
is 4 wide in x, 2 in y, flat in z. -/
def demoMesh : List V3 := [⟨0, 0, 0⟩, ⟨4, 2, 0⟩]

/-- Witness for C5 (amended): the hypotheses hold at `demoMesh` and the
normalised bounding box is centred with largest dimension exactly 2. -/
theorem claim_C5_witness :
    demoMesh ≠ [] ∧ 0 < maxDimOf demoMesh ∧
    (centerXOf (centerAndScale demoMesh) = 0 ∧ centerYOf (centerAndScale demoMesh) = 0 ∧
     centerZOf (centerAndScale demoMesh) = 0 ∧ maxDimOf (centerAndScale demoMesh) = 2) :=
  ⟨by simp [demoMesh],
   by norm_num [maxDimOf, sizeX, sizeY, sizeZ, xs, ys, zs, listMin, listMax, demoMesh],
   claim_C5_normalized_bbox demoMesh (by simp [demoMesh])
     (by norm_num [maxDimOf, sizeX, sizeY, sizeZ, xs, ys, zs, listMin, listMax, demoMesh])⟩

/-! ## Scene manager state (`STLViewer.tsx`)

The component keeps the live three.js objects in React refs.  The model
gathers them into one explicit record.  Scene-graph objects (the things
`scene.add` / `scene.remove` act on) are `SceneObj` values identified
by an id drawn from the allocation counter `nextId`; a ref holding a
three.js object is modelled as an `Option Nat` holding the object's id.
The requestAnimationFrame plumbing is modelled by `pendingFrame` (the
id of the scheduled callback — `animationFrameRef.current` always holds
the id of the one pending callback, because `animate` re-registers
itself first thing each tick), `nextFrameId` (the host's id counter)
and `loopStarts` (how many times an animation loop was ever started).
`hasRenderer` / `hasOrbit` record that `rendererRef` / `controlsRef`
are non-null; the clean-up routine never nulls the refs, it only
releases the GPU resources, which `rendererReleased` / `orbitReleased`
and `disposedIds` record. -/

/-- Kinds of scene-graph objects the component creates. -/
inductive ObjKind
  | meshSurface
  | wireframeObj
  | normalsHelper
  | gridHelper
  | axesHelper
  | ambientLight
  | directionalLight
deriving DecidableEq

/-- One live scene-graph object.  `geom` is its geometry buffer (used
by the mesh surface, wireframe and normals helper); `rotationY` is the
`rotation.y` Euler angle; `intensity` is meaningful for lights,
`color` for materials. -/
structure SceneObj where
  id : Nat
  kind : ObjKind
  visible : Bool
  color : String
  intensity : ℚ
  rotationY : ℚ
  geom : List V3
deriving DecidableEq

/-- The scene manager's live state: the refs of `STLViewer.tsx` made
explicit. -/
structure SceneState where
  inited : Bool
  children : List SceneObj
  meshRef : Option Nat
  wireframeRef : Option Nat
  normalsRef : Option Nat
  gridRef : Option Nat
  axesRef : Option Nat
  background : String
  nextId : Nat
  disposedIds : List Nat
  pendingFrame : Option Nat
  nextFrameId : Nat
  loopStarts : Nat
  hasRenderer : Bool
  hasOrbit : Bool
  rendererReleased : Bool
  orbitReleased : Bool
deriving DecidableEq

/-- State before the component mounts: every ref is null, nothing is
scheduled, nothing allocated. -/
def emptyState : SceneState :=
  { inited := false
    children := []
    meshRef := none
    wireframeRef := none
    normalsRef := none
    gridRef := none
    axesRef := none
    background := ""
    nextId := 0
    disposedIds := []
    pendingFrame := none
    nextFrameId := 0
    loopStarts := 0
    hasRenderer := false
    hasOrbit := false
    rendererReleased := false
    orbitReleased := false }

/-- Model of `initThreeJS` (`STLViewer.tsx` lines 32-103).  Guard: the
source returns immediately when the canvas ref is null or
`isInitialized` is already set.  Otherwise it creates the scene,
camera, renderer and orbit controller, adds an ambient light
(intensity 0.6), a directional light (0.8), a grid helper and an axes
helper, sets the background from the current control state, starts the
animation loop (the first `animate()` call schedules the next frame)
and marks the component initialised. -/
def initThreeJS (canvas : Bool) (c : ViewerControls) (st : SceneState) : SceneState :=
  if canvas = false ∨ st.inited = true then st
  else
    { st with
      inited := true
      children := st.children ++
        [⟨st.nextId, .ambientLight, true, "#ffffff", 0.6, 0, []⟩,
         ⟨st.nextId + 1, .directionalLight, true, "#ffffff", 0.8, 0, []⟩,
         ⟨st.nextId + 2, .gridHelper, true, "", 0, 0, []⟩,
         ⟨st.nextId + 3, .axesHelper, true, "", 0, 0, []⟩]
      gridRef := some (st.nextId + 2)
      axesRef := some (st.nextId + 3)
      background := c.backgroundColor
      nextId := st.nextId + 4
      hasRenderer := true
      hasOrbit := true
      pendingFrame := some st.nextFrameId
      nextFrameId := st.nextFrameId + 1
      loopStarts := st.loopStarts + 1 }

/-- Field-by-field update of one scene object under a control state,
mirroring the reconciliation effect (`STLViewer.tsx` lines 295-335):
the mesh surface's material colour is set from `modelColor` (the
material is always a `MeshPhongMaterial`, so the `instanceof` check in
the source always passes for the mesh ref); the wireframe, normals,
grid and axes objects get their `visible` flag from the corresponding
toggle; every light gets `intensity` from `lightingIntensity` (the
`scene.traverse` walk).  An object's id and kind are never changed. -/
def updObj (c : ViewerControls) (mr wr nr gr ar : Option Nat) (o : SceneObj) : SceneObj :=
  { o with
    color := if mr = some o.id then c.modelColor else o.color
    visible :=
      if ar = some o.id then c.showAxes
      else if gr = some o.id then c.showGrid
      else if nr = some o.id then c.showNormals
      else if wr = some o.id then c.showWireframe
      else o.visible
    intensity :=
      if o.kind = .ambientLight ∨ o.kind = .directionalLight then c.lightingIntensity
      else o.intensity }

/-- Model of the control-state reconciliation effect
(`STLViewer.tsx` lines 295-335), the spec's `applyControlState`.  Guard:
the source returns early when the scene ref is null or the component is
not initialised.  It then updates visibilities, colours and light
intensities on the existing objects and assigns a fresh colour value to
`scene.background`; it never adds, removes or disposes a scene object.
(The `new THREE.Color(...)` assigned to the background is a plain value,
not a scene-graph object.) -/
def applyControlState (c : ViewerControls) (st : SceneState) : SceneState :=
  if st.inited = false then st
  else
    { st with
      children := st.children.map
        (updObj c st.meshRef st.wireframeRef st.normalsRef st.gridRef st.axesRef)
      background := c.backgroundColor }

/-- Scene-graph mutations performed by one run of `loadSTL`, in source
order: the previous mesh/wireframe/normals objects are removed and
their resources disposed, then the new set is created and added. -/
inductive LoadEvent
  | dispose (id : Nat)
  | install (id : Nat)
deriving DecidableEq

/-- Result of one `loadSTL` run: the new state, the error messages
reported through `onError`, and the ordered scene-graph mutations. -/
structure LoadResult where
  state : SceneState
  errors : List String
  events : List LoadEvent
deriving DecidableEq

/-- The single user-visible message of the catch block
(`STLViewer.tsx` line 288). -/
def parseErrorMsg : String :=
  "Failed to parse STL file. Please ensure it is a valid STL file."

/-- Removal of the object with the given id from the scene graph
(`scene.remove`). -/
def removeId (i : Nat) (l : List SceneObj) : List SceneObj :=
  l.filter fun o => o.id != i

/-- Conditional removal guided by a ref, as in
`if (meshRef.current) { scene.remove(...); ...dispose() }`. -/
def removeRef (r : Option Nat) (l : List SceneObj) : List SceneObj :=
  match r with
  | none => l
  | some i => removeId i l

/-- Model of `loadSTL` (`STLViewer.tsx` lines 198-292).  The argument
`geom?` is the outcome of `STLLoader.parse` on the uploaded buffer:
`none` models a thrown parse error (the parser is three.js library
code; it is the only fallible step of the try block — everything after
it is constructors, assignments and arithmetic, which do not throw).
On `none`, control jumps to the catch block before any mutation, so the
state is returned untouched with the single error message.  On
`some g`, the geometry is normalised, the previous
mesh/wireframe/normals set is removed from the scene and disposed, and
the new set is created, configured from the current control state, and
added.  (The camera/controller re-framing of lines 270-284 touches no
scene-graph object and no claim, and is not modelled.) -/
def loadSTL (geom? : Option (List V3)) (c : ViewerControls) (st : SceneState) : LoadResult :=
  match geom? with
  | none => ⟨st, [parseErrorMsg], []⟩
  | some g =>
    let ng := centerAndScale g
    let cleared := removeRef st.normalsRef (removeRef st.wireframeRef (removeRef st.meshRef st.children))
    let m : SceneObj := ⟨st.nextId, .meshSurface, true, c.modelColor, 0, 0, ng⟩
    let w : SceneObj := ⟨st.nextId + 1, .wireframeObj, c.showWireframe, "#ffffff", 0, 0, ng⟩
    let nh : SceneObj := ⟨st.nextId + 2, .normalsHelper, c.showNormals, "#ff0000", 0, 0, ng⟩
    ⟨{ st with
        children := cleared ++ [m, w, nh]
        meshRef := some st.nextId
        wireframeRef := some (st.nextId + 1)
        normalsRef := some (st.nextId + 2)
        nextId := st.nextId + 3
        disposedIds := st.disposedIds ++ st.meshRef.toList ++ st.wireframeRef.toList ++ st.normalsRef.toList },
     [],
     (st.meshRef.toList ++ st.wireframeRef.toList ++ st.normalsRef.toList).map LoadEvent.dispose ++
       [.install st.nextId, .install (st.nextId + 1), .install (st.nextId + 2)]⟩

/-- Model of one run of the `animate` callback
(`STLViewer.tsx` lines 85-99).  The callback fires only while a frame
is scheduled (`cancelAnimationFrame` in the clean-up removes the
pending callback, after which the host never invokes it again).  When
it fires it first re-registers itself, then — crucially — reads the
rotation speed from `captured`, the `controls` prop closed over when
`initThreeJS` created the closure, NOT from the control state most
recently applied by the reconciliation effect.  It advances the orbit
controller and renders whenever the renderer/scene/camera refs are
non-null (they are never nulled, so after clean-up only the missing
scheduled frame prevents rendering).  Returns the new state and
whether a render call was executed. -/
def animateTick (captured : ViewerControls) (st : SceneState) : SceneState × Bool :=
  match st.pendingFrame with
  | none => (st, false)
  | some _ =>
    let st1 : SceneState :=
      { st with pendingFrame := some st.nextFrameId, nextFrameId := st.nextFrameId + 1 }
    let st2 : SceneState :=
      match st1.meshRef with
      | some i =>
        if 0 < captured.rotationSpeed then
          { st1 with
            children := st1.children.map fun o =>
              if o.id = i then { o with rotationY := o.rotationY + captured.rotationSpeed * (1 / 100) }
              else o }
        else st1
      | none => st1
    (st2, st2.hasRenderer)

/-- Steps performed by the effect clean-up, in source order. -/
inductive TDEvent
  | removeResizeListener
  | cancelFrame
  | releaseOrbit
  | releaseRenderer
  | releaseMeshGeometry
  | releaseMeshMaterial
  | releaseWireframeGeometry
  | releaseWireframeMaterial
  | releaseNormals
deriving DecidableEq

/-- Which teardown steps release GPU resources. -/
def TDEvent.isRelease : TDEvent → Bool
  | .removeResizeListener => false
  | .cancelFrame => false
  | _ => true

/-- Model of the effect clean-up (`STLViewer.tsx` lines 162-192), the
spec's `dispose()`: remove the resize listener, cancel the one pending
animation frame (`animationFrameRef.current` is its id), then dispose
the orbit controller, the renderer, and the geometry/material of the
mesh, wireframe and normals objects, in that order.  The refs
themselves are not nulled. -/
def cleanup (st : SceneState) : SceneState × List TDEvent :=
  ({ st with
      pendingFrame := none
      orbitReleased := st.orbitReleased || st.hasOrbit
      rendererReleased := st.rendererReleased || st.hasRenderer
      disposedIds := st.disposedIds ++ st.meshRef.toList ++ st.wireframeRef.toList ++ st.normalsRef.toList },
   [TDEvent.removeResizeListener, TDEvent.cancelFrame] ++
     (if st.hasOrbit then [TDEvent.releaseOrbit] else []) ++
     (if st.hasRenderer then [TDEvent.releaseRenderer] else []) ++
     (match st.meshRef with
      | some _ => [TDEvent.releaseMeshGeometry, TDEvent.releaseMeshMaterial]
      | none => []) ++
     (match st.wireframeRef with
      | some _ => [TDEvent.releaseWireframeGeometry, TDEvent.releaseWireframeMaterial]
      | none => []) ++
     (match st.normalsRef with
      | some _ => [TDEvent.releaseNormals]
      | none => []))

/-- Ids of the scene-graph objects of a given kind. -/
def kindIds (k : ObjKind) (l : List SceneObj) : List Nat :=
  (l.filter fun o => o.kind == k).map fun o => o.id

/-- How many scene-graph objects of a given kind are in the scene. -/
def kindCount (k : ObjKind) (st : SceneState) : Nat :=
  (kindIds k st.children).length

/-- Rotation angle of the displayed mesh surface (0 when none). -/
def meshRotationY (st : SceneState) : ℚ :=
  match st.meshRef with
  | some i => (((st.children.find? fun o => o.id == i).map fun o => o.rotationY).getD 0)
  | none => 0

/-! ## Claims about the scene manager -/

theorem updObj_idem (c : ViewerControls) (mr wr nr gr ar : Option Nat) (o : SceneObj) :
    updObj c mr wr nr gr ar (updObj c mr wr nr gr ar o) = updObj c mr wr nr gr ar o := by
  simp only [updObj]
  by_cases h1 : mr = some o.id <;>
    by_cases h2 : ar = some o.id <;>
      by_cases h3 : gr = some o.id <;>
        by_cases h4 : nr = some o.id <;>
          by_cases h5 : wr = some o.id <;>
            by_cases h6 : o.kind = ObjKind.ambientLight ∨ o.kind = ObjKind.directionalLight <;>
              simp [h1, h2, h3, h4, h5, h6]

theorem updObj_id (c : ViewerControls) (mr wr nr gr ar : Option Nat) (o : SceneObj) :
    (updObj c mr wr nr gr ar o).id = o.id := rfl

theorem updObj_kind (c : ViewerControls) (mr wr nr gr ar : Option Nat) (o : SceneObj) :
    (updObj c mr wr nr gr ar o).kind = o.kind := rfl

/-- C1: the control-state reconciliation effect is idempotent — applying
the same control state a second time changes nothing — and it never
allocates or disposes a scene object: the allocation counter, the
disposed-resource list, and the id/kind of every scene-graph child are
untouched by an application. -/
theorem map_updObj_idem (c : ViewerControls) (mr wr nr gr ar : Option Nat) (l : List SceneObj) :
    List.map (updObj c mr wr nr gr ar ∘ updObj c mr wr nr gr ar) l =
      List.map (updObj c mr wr nr gr ar) l :=
  List.map_congr_left fun o _ => updObj_idem c mr wr nr gr ar o

theorem map_proj_updObj (c : ViewerControls) (mr wr nr gr ar : Option Nat) (l : List SceneObj) :
    List.map ((fun o => (o.id, o.kind)) ∘ updObj c mr wr nr gr ar) l =
      List.map (fun o => (o.id, o.kind)) l :=
  List.map_congr_left fun _ _ => rfl

theorem claim_C1_applyControlState_idempotent (c : ViewerControls) (st : SceneState) :
    applyControlState c (applyControlState c st) = applyControlState c st ∧
    (applyControlState c st).nextId = st.nextId ∧
    (applyControlState c st).disposedIds = st.disposedIds ∧
    (applyControlState c st).children.map (fun o => (o.id, o.kind)) =
      st.children.map fun o => (o.id, o.kind) := by
  by_cases h : st.inited = false
  · simp [applyControlState, h]
  · have h' : st.inited = true := by
      revert h
      cases st.inited <;> simp
    simp [applyControlState, h', List.map_map, map_updObj_idem, map_proj_updObj]

/-- C2: when the parse of the uploaded buffer fails, `loadSTL` reaches
the catch block before any scene-graph mutation: the previous mesh,
wireframe and normals objects (and all other state) are untouched,
exactly one user-visible error message is reported via `onError`, and
no object is installed or disposed — no half-constructed object can be
left in the scene. -/
theorem claim_C2_failed_load_preserves_scene (c : ViewerControls) (st : SceneState) :
    (loadSTL none c st).state = st ∧
    (loadSTL none c st).errors = [parseErrorMsg] ∧
    (loadSTL none c st).events = [] :=
  ⟨rfl, rfl, rfl⟩

/-- C7: calling `initThreeJS` again while the component is already
initialised is a no-op: the guard at line 33 returns before any object,
render loop or listener is created. -/
theorem claim_C7_reinit_noop (canvas : Bool) (c : ViewerControls) (st : SceneState)
    (h : st.inited = true) :
    initThreeJS canvas c st = st := by
  simp [initThreeJS, h]

/-- Witness for C7: after a first initialisation from the pristine
state, a second `initThreeJS` call changes nothing — in particular no
second render loop is started and no duplicate objects are created. -/
theorem claim_C7_witness :
    (initThreeJS true initialControls emptyState).inited = true ∧
    initThreeJS true initialControls (initThreeJS true initialControls emptyState) =
      initThreeJS true initialControls emptyState :=
  ⟨rfl, claim_C7_reinit_noop true initialControls _ rfl⟩

/-- C4: the effect clean-up cancels the scheduled frame callback
exactly once, and it does so before any GPU resource (orbit controller,
renderer, geometries, materials) is released: the event sequence starts
with the listener removal and the cancellation, and everything after
position 2 is a release step.  After clean-up, a subsequently arriving
tick finds no scheduled callback: it executes no rendering call and
changes nothing. -/
theorem claim_C4_cancel_before_release (captured : ViewerControls) (st : SceneState) :
    ((cleanup st).2.take 2 = [TDEvent.removeResizeListener, TDEvent.cancelFrame] ∧
     (∀ e ∈ (cleanup st).2.drop 2, e.isRelease = true) ∧
     (cleanup st).2.count TDEvent.cancelFrame = 1) ∧
    animateTick captured (cleanup st).1 = ((cleanup st).1, false) := by
  refine ⟨?_, rfl⟩
  obtain ⟨ini, ch, mr, wr, nr, gr, ar, bg, nid, dids, pf, nfid, ls, hr, ho, rr, orl⟩ := st
  rcases mr with _ | mi <;> rcases wr with _ | wi <;> rcases nr with _ | ni <;>
    cases hr <;> cases ho <;>
      refine ⟨rfl, ?_, rfl⟩ <;> simp [cleanup, TDEvent.isRelease]

/-! ## Claim C3: exactly one renderable set after consecutive loads -/

/-- Removal of an optional id from a list of ids. -/
def filterOpt (r : Option Nat) (l : List Nat) : List Nat :=
  match r with
  | none => l
  | some i => l.filter fun x => x != i

theorem kindIds_append (k : ObjKind) (l1 l2 : List SceneObj) :
    kindIds k (l1 ++ l2) = kindIds k l1 ++ kindIds k l2 := by
  simp [kindIds, List.filter_append]

theorem kindIds_removeId (k : ObjKind) (i : Nat) (l : List SceneObj) :
    kindIds k (removeId i l) = (kindIds k l).filter fun x => x != i := by
  induction l with
  | nil => rfl
  | cons o t ih =>
    by_cases h1 : o.id = i <;> by_cases h2 : o.kind = k <;>
      simp [removeId, kindIds, List.filter_cons, h1, h2] <;>
        simpa [removeId, kindIds] using ih

theorem kindIds_removeRef (k : ObjKind) (r : Option Nat) (l : List SceneObj) :
    kindIds k (removeRef r l) = filterOpt r (kindIds k l) := by
  rcases r with _ | i
  · rfl
  · exact kindIds_removeId k i l

theorem filterOpt_nil (r : Option Nat) : filterOpt r [] = [] := by
  rcases r <;> rfl

theorem filterOpt_self (r : Option Nat) : filterOpt r r.toList = [] := by
  rcases r <;> simp [filterOpt]

/-- Distinctness of two optional ids: when both are present their
values differ. -/
def refsDistinct (a b : Option Nat) : Bool :=
  match a, b with
  | some i, some j => i != j
  | _, _ => true

theorem filterOpt_other (a b : Option Nat) (hd : refsDistinct a b = true) :
    filterOpt a b.toList = b.toList := by
  rcases a with _ | i <;> rcases b with _ | j
  · rfl
  · rfl
  · rfl
  · simp only [refsDistinct, bne_iff_ne] at hd
    simp [filterOpt, bne_iff_ne, Ne.symm hd]

/-- Structural invariant of reachable scene states: the scene graph
contains exactly the mesh-surface / wireframe / normals objects that
the corresponding refs point to, and any two of those refs that are
set point to different objects.  It holds for the freshly initialised
scene (no such object, all three refs null) and is preserved by every
operation. -/
def SceneInv (st : SceneState) : Prop :=
  kindIds .meshSurface st.children = st.meshRef.toList ∧
  kindIds .wireframeObj st.children = st.wireframeRef.toList ∧
  kindIds .normalsHelper st.children = st.normalsRef.toList ∧
  refsDistinct st.meshRef st.wireframeRef = true ∧
  refsDistinct st.meshRef st.normalsRef = true ∧
  refsDistinct st.wireframeRef st.normalsRef = true

theorem loadSTL_success_spec (g : List V3) (c : ViewerControls) (st : SceneState)
    (h : SceneInv st) :
    (loadSTL (some g) c st).errors = [] ∧
    (loadSTL (some g) c st).state.meshRef = some st.nextId ∧
    (loadSTL (some g) c st).state.wireframeRef = some (st.nextId + 1) ∧
    (loadSTL (some g) c st).state.normalsRef = some (st.nextId + 2) ∧
    (loadSTL (some g) c st).state.nextId = st.nextId + 3 ∧
    kindIds .meshSurface (loadSTL (some g) c st).state.children = [st.nextId] ∧
    kindIds .wireframeObj (loadSTL (some g) c st).state.children = [st.nextId + 1] ∧
    kindIds .normalsHelper (loadSTL (some g) c st).state.children = [st.nextId + 2] ∧
    (loadSTL (some g) c st).events =
      (st.meshRef.toList ++ st.wireframeRef.toList ++ st.normalsRef.toList).map LoadEvent.dispose ++
        [.install st.nextId, .install (st.nextId + 1), .install (st.nextId + 2)] ∧
    SceneInv (loadSTL (some g) c st).state := by
  obtain ⟨h1, h2, h3, d12, d13, d23⟩ := h
  have hch : (loadSTL (some g) c st).state.children =
      removeRef st.normalsRef (removeRef st.wireframeRef (removeRef st.meshRef st.children)) ++
        [⟨st.nextId, .meshSurface, true, c.modelColor, 0, 0, centerAndScale g⟩,
         ⟨st.nextId + 1, .wireframeObj, c.showWireframe, "#ffffff", 0, 0, centerAndScale g⟩,
         ⟨st.nextId + 2, .normalsHelper, c.showNormals, "#ff0000", 0, 0, centerAndScale g⟩] := rfl
  have hm : kindIds .meshSurface
      (removeRef st.normalsRef (removeRef st.wireframeRef (removeRef st.meshRef st.children))) = [] := by
    rw [kindIds_removeRef, kindIds_removeRef, kindIds_removeRef, h1, filterOpt_self,
      filterOpt_nil, filterOpt_nil]
  have hw : kindIds .wireframeObj
      (removeRef st.normalsRef (removeRef st.wireframeRef (removeRef st.meshRef st.children))) = [] := by
    rw [kindIds_removeRef, kindIds_removeRef, kindIds_removeRef, h2, filterOpt_other _ _ d12,
      filterOpt_self, filterOpt_nil]
  have hn : kindIds .normalsHelper
      (removeRef st.normalsRef (removeRef st.wireframeRef (removeRef st.meshRef st.children))) = [] := by
    rw [kindIds_removeRef, kindIds_removeRef, kindIds_removeRef, h3, filterOpt_other _ _ d13,
      filterOpt_other _ _ d23, filterOpt_self]
  have hkm : kindIds .meshSurface (loadSTL (some g) c st).state.children = [st.nextId] := by
    rw [hch, kindIds_append, hm]
    rfl
  have hkw : kindIds .wireframeObj (loadSTL (some g) c st).state.children = [st.nextId + 1] := by
    rw [hch, kindIds_append, hw]
    rfl
  have hkn : kindIds .normalsHelper (loadSTL (some g) c st).state.children = [st.nextId + 2] := by
    rw [hch, kindIds_append, hn]
    rfl
  refine ⟨rfl, rfl, rfl, rfl, rfl, hkm, hkw, hkn, rfl, hkm, hkw, hkn, ?_, ?_, ?_⟩
  · show refsDistinct (some st.nextId) (some (st.nextId + 1)) = true
    simp [refsDistinct]
  · show refsDistinct (some st.nextId) (some (st.nextId + 2)) = true
    simp [refsDistinct]
  · show refsDistinct (some (st.nextId + 1)) (some (st.nextId + 2)) = true
    simp [refsDistinct]

/-- C3: after two successful consecutive loads the scene contains
exactly one mesh-surface object, exactly one wireframe overlay and
exactly one normals overlay — never two of any, never zero — and the
second load first disposes the previous set (the three objects
installed by the first load) before installing the new one, as the
event sequence records. -/
theorem claim_C3_load_replace_invariant (g1 g2 : List V3) (c1 c2 : ViewerControls)
    (st : SceneState) (h : SceneInv st) :
    kindCount .meshSurface (loadSTL (some g2) c2 (loadSTL (some g1) c1 st).state).state = 1 ∧
    kindCount .wireframeObj (loadSTL (some g2) c2 (loadSTL (some g1) c1 st).state).state = 1 ∧
    kindCount .normalsHelper (loadSTL (some g2) c2 (loadSTL (some g1) c1 st).state).state = 1 ∧
    (loadSTL (some g2) c2 (loadSTL (some g1) c1 st).state).events =
      [.dispose st.nextId, .dispose (st.nextId + 1), .dispose (st.nextId + 2),
       .install (st.nextId + 3), .install (st.nextId + 4), .install (st.nextId + 5)] := by
  obtain ⟨e1, mr1, wr1, nr1, ni1, km1, kw1, kn1, ev1, inv1⟩ := loadSTL_success_spec g1 c1 st h
  obtain ⟨e2, mr2, wr2, nr2, ni2, km2, kw2, kn2, ev2, inv2⟩ :=
    loadSTL_success_spec g2 c2 (loadSTL (some g1) c1 st).state inv1
  refine ⟨?_, ?_, ?_, ?_⟩
  · rw [kindCount, km2]
    rfl
  · rw [kindCount, kw2]
    rfl
  · rw [kindCount, kn2]
    rfl
  · rw [ev2, mr1, wr1, nr1, ni1]
    simp

/-- Witness for C3: the freshly initialised scene satisfies the
invariant (no renderable set yet, all three refs null), and two
concrete loads from it leave exactly one mesh surface. -/
theorem claim_C3_witness :
    SceneInv (initThreeJS true initialControls emptyState) ∧
    kindCount .meshSurface
      (loadSTL (some demoMesh) initialControls
        (loadSTL (some demoMesh) initialControls
          (initThreeJS true initialControls emptyState)).state).state = 1 :=
  ⟨⟨rfl, rfl, rfl, rfl, rfl, rfl⟩,
   (claim_C3_load_replace_invariant demoMesh demoMesh initialControls initialControls
     (initThreeJS true initialControls emptyState) ⟨rfl, rfl, rfl, rfl, rfl, rfl⟩).1⟩

/-! ## Claim C6: per-tick rotation and the control state it reads

In the source, the `animate` closure is created inside `initThreeJS`
(lines 85-99) and reads `controls.rotationSpeed` from the `controls`
prop binding of the render in which that closure was created.  The
reconciliation effect (lines 295-335) applies later control states to
the scene objects, but nothing ever hands the running loop the new
`controls` value: `initThreeJS` is recreated only when `isInitialized`
or `controls.backgroundColor` change, and even then its guard returns
before a new `animate` closure is installed.  So the speed used each
tick is the one captured when the loop was created, not the currently
applied control state's `rotationSpeed`.  The `ControlsPanel` exposes
the rotation slider with the promise that changes apply in real time,
so the spec describes the intent and the code's captured snapshot is a
slip (a stale closure). -/

/-- Control state captured by the `animate` closure at loop creation:
the application's initial controls, whose `rotationSpeed` is 0. -/
def capturedAtLoopStart : ViewerControls := initialControls

/-- Control state applied afterwards by the user: rotation speed turned
up to 5. -/
def appliedControls : ViewerControls :=
  { initialControls with rotationSpeed := 5 }

/-- The failing scene state for C6: the component is initialised, a
mesh is loaded, and the control state with `rotationSpeed = 5` has been
applied through the reconciliation effect. -/
def c6State : SceneState :=
  applyControlState appliedControls
    (loadSTL (some demoMesh) initialControls
      (initThreeJS true initialControls emptyState)).state

/-- C6 evaluated at the failing input: a mesh is displayed, the
currently applied control state has `rotationSpeed = 5 > 0`, the tick
fires and renders — yet the mesh rotation is NOT advanced, because the
tick reads the `rotationSpeed` captured at loop creation (0), not the
currently applied one.  The claim would require the rotation to advance
by `5 * 0.01`. -/
theorem claim_C6_stale_rotation_speed :
    0 < appliedControls.rotationSpeed ∧
    c6State.meshRef.isSome = true ∧
    (animateTick capturedAtLoopStart c6State).2 = true ∧
    meshRotationY (animateTick capturedAtLoopStart c6State).1 = meshRotationY c6State := by
  refine ⟨by decide, rfl, ?_, ?_⟩
  · rfl
  · rfl
